import Mathlib

/-
Shallow embedding of src/src/lib/websocket.ts (class WebSocketService and the
getWebSocketService singleton accessor).

Modelling conventions:
  * The mutable fields of the class (socket, reconnectAttempts, pendingRetries
    via setTimeout, and the connected flag of the current socket object) become
    the record WSState.  The socket field is an Option Nat holding the identity
    of the current socket object, mirroring the nullable reference.
  * liveHandles is a ghost field: the identities of every socket object created
    by io(...) in connect() that has not been closed by an explicit
    socket.disconnect() call.  The source keeps no such list; the field only
    records which handles are still live, it never influences behaviour.
  * pendingRetries counts setTimeout callbacks scheduled by handleReconnect()
    that have not yet fired.  The source stores no timer id (nothing is ever
    cleared), so a plain counter is faithful.
  * Each externally visible action of one handler or method body is recorded as
    an Effect: scheduling a retry timer, creating or closing a socket, calling
    socket.emit / socket.on / socket.off, window.dispatchEvent, and toast calls.
  * One WSEvent is one entry point: a transport callback firing on the current
    socket, a scheduled retry timer firing, an inbound message handler firing,
    or a public method being invoked by application code.
  * The try/catch in connect() is modelled by its non-throwing path: the io()
    call of socket.io-client does not throw synchronously, so the catch branch
    calling handleReconnect is dead in practice and is not modelled.
  * The typeof window check inside the handlers is true in the interactive
    (browser) context that WebSocketService runs in, so the window.dispatchEvent
    branches are always taken there; the non-interactive context is modelled
    separately through getWebSocketService below.
-/

namespace WebSocketModel

/-- Kinds of toast produced by the handlers: toast.success, plain toast(...),
and toast.error, the three react-hot-toast entry points the source uses. -/
inductive ToastKind
  | success
  | plain
  | error
deriving DecidableEq, Repr

/-- Observable side effects of one handler or method body of WebSocketService. -/
inductive Effect
  | scheduleRetry (delayMs : Nat)
  | createSocket (sid : Nat)
  | closeSocket (sid : Nat)
  | socketEmit (topic : String)
  | socketOn (topic : String)
  | socketOff (topic : String) (single : Bool)
  | windowDispatch (topic : String)
  | toast (kind : ToastKind) (message : String)
deriving DecidableEq, Repr

/-- Field maxReconnectAttempts = 5 of WebSocketService. -/
def maxReconnectAttempts : Nat := 5

/-- Field reconnectDelay = 1000 of WebSocketService (the backoff base delay). -/
def reconnectDelay : Nat := 1000

/-- The mutable state of one WebSocketService instance.  socket and
reconnectAttempts are the class fields; connected is the connected flag of the
current socket object (read by isConnected); pendingRetries counts setTimeout
callbacks scheduled by handleReconnect that have not fired yet; liveHandles is
a ghost list of socket objects created and never closed; nextSid numbers the
socket objects in creation order. -/
structure WSState where
  socket : Option Nat
  connected : Bool
  reconnectAttempts : Nat
  pendingRetries : Nat
  liveHandles : List Nat
  nextSid : Nat
deriving DecidableEq, Repr

/-- Backoff delay computed at line 181 of the source:
reconnectDelay * Math.pow(2, attempt - 1), for the attempt-th retry. -/
def backoffDelay (attempt : Nat) : Nat :=
  reconnectDelay * 2 ^ (attempt - 1)

/-- Method handleReconnect (lines 173-187): if reconnectAttempts has reached
maxReconnectAttempts, only show an error toast and return; otherwise increment
reconnectAttempts and schedule a retry timer with the exponential backoff
delay. -/
def handleReconnect (s : WSState) : WSState × List Effect :=
  if maxReconnectAttempts ≤ s.reconnectAttempts then
    (s, [Effect.toast ToastKind.error "Connection lost. Please refresh the page."])
  else
    let attempts := s.reconnectAttempts + 1
    ({ s with reconnectAttempts := attempts, pendingRetries := s.pendingRetries + 1 },
      [Effect.scheduleRetry (backoffDelay attempts)])

/-- Method connect (lines 14-32): create a fresh socket object with io(...) and
overwrite this.socket with it.  Nothing closes the previous socket object or
removes its listeners, so the previous handle stays in liveHandles. -/
def connect (s : WSState) : WSState × List Effect :=
  let sid := s.nextSid
  ({ s with
      socket := some sid
      connected := false
      liveHandles := s.liveHandles ++ [sid]
      nextSid := sid + 1 },
    [Effect.createSocket sid])

/-- Entry points of the service: transport callbacks on the current socket,
the scheduled retry timer firing, inbound message handlers, and the public
methods called by application code. -/
inductive WSEvent
  | transportConnect
  | transportDisconnect (reason : String)
  | transportError
  | timerFire
  | inLeaderboardUpdate
  | inPointsUpdate (pointsGained : Int)
  | inBadgeUnlocked (badgeName : String)
  | inStreakUpdate (streakMilestone : Option Int)
  | inQuizSessionUpdate
  | inCourseEnrollment
  | inNotification (ntype : String) (message : String)
  | inCompetitionAnnouncement (message : String)
  | callJoinCourse (courseId : String) (userId : String)
  | callLeaveCourse (courseId : String) (userId : String)
  | callJoinLeaderboard (userId : String)
  | callLeaveLeaderboard (userId : String)
  | callSubmitQuizAnswer
  | callStartQuiz
  | callCompleteLesson
  | callSendHeartbeat (userId : String)
  | callUpdateActivity (userId : String) (activity : String)
  | callDisconnect
  | callEmit (ev : String)
  | callOn (ev : String)
  | callOff (ev : String) (single : Bool)
deriving DecidableEq, Repr

/-- The null check this.socket shared by every handler installation and every
public method body: run the continuation when a socket object exists, do
nothing otherwise. -/
def guardSocket (s : WSState) (k : Nat → WSState × List Effect) :
    WSState × List Effect :=
  match s.socket with
  | some sid => k sid
  | none => (s, [])

/-- The switch over data.type in the notification handler (lines 141-156):
success maps to toast.success, error to toast.error, info and warning to a
plain toast, and any other value falls through to the default plain toast. -/
def notificationToast (ntype message : String) : Effect :=
  if ntype = "success" then Effect.toast ToastKind.success message
  else if ntype = "info" then Effect.toast ToastKind.plain message
  else if ntype = "warning" then Effect.toast ToastKind.plain message
  else if ntype = "error" then Effect.toast ToastKind.error message
  else Effect.toast ToastKind.plain message

/-- One step of the service: the state after and the effects of the handler or
method body that the event triggers.  Each branch is read off the body of the
corresponding handler in setupEventListeners (lines 34-171) or the public method
(lines 189-304). -/
def step (s : WSState) (e : WSEvent) : WSState × List Effect :=
  match e with
  | WSEvent.transportConnect =>
      guardSocket s fun _ =>
        ({ s with connected := true, reconnectAttempts := 0 },
          [Effect.windowDispatch "websocket-connected"])
  | WSEvent.transportDisconnect reason =>
      guardSocket s fun _ =>
        let s1 := { s with connected := false }
        if reason = "io server disconnect" then
          let r := handleReconnect s1
          (r.1, Effect.windowDispatch "websocket-disconnected" :: r.2)
        else
          (s1, [Effect.windowDispatch "websocket-disconnected"])
  | WSEvent.transportError =>
      guardSocket s fun _ => handleReconnect s
  | WSEvent.timerFire =>
      if 0 < s.pendingRetries then
        connect { s with pendingRetries := s.pendingRetries - 1 }
      else (s, [])
  | WSEvent.inLeaderboardUpdate =>
      guardSocket s fun _ => (s, [Effect.windowDispatch "leaderboard-update"])
  | WSEvent.inPointsUpdate pg =>
      guardSocket s fun _ =>
        (s, Effect.windowDispatch "points-update" ::
          (if 0 < pg then
            [Effect.toast ToastKind.success ("+" ++ toString pg ++ " points earned! 🎉")]
          else []))
  | WSEvent.inBadgeUnlocked badgeName =>
      guardSocket s fun _ =>
        (s, [Effect.windowDispatch "badge-unlocked",
             Effect.toast ToastKind.success ("🏆 Badge Unlocked: " ++ badgeName ++ "!")])
  | WSEvent.inStreakUpdate m =>
      guardSocket s fun _ =>
        (s, Effect.windowDispatch "streak-update" ::
          (match m with
           | some v =>
              if v = 0 then []
              else [Effect.toast ToastKind.success ("🔥 " ++ toString v ++ " Day Streak!")]
           | none => []))
  | WSEvent.inQuizSessionUpdate =>
      guardSocket s fun _ => (s, [Effect.windowDispatch "quiz-session-update"])
  | WSEvent.inCourseEnrollment =>
      guardSocket s fun _ => (s, [Effect.windowDispatch "course-enrollment"])
  | WSEvent.inNotification ntype message =>
      guardSocket s fun _ => (s, [notificationToast ntype message])
  | WSEvent.inCompetitionAnnouncement message =>
      guardSocket s fun _ => (s, [Effect.toast ToastKind.plain message])
  | WSEvent.callJoinCourse _ _ =>
      guardSocket s fun _ => (s, [Effect.socketEmit "join-course"])
  | WSEvent.callLeaveCourse _ _ =>
      guardSocket s fun _ => (s, [Effect.socketEmit "leave-course"])
  | WSEvent.callJoinLeaderboard _ =>
      guardSocket s fun _ => (s, [Effect.socketEmit "join-leaderboard"])
  | WSEvent.callLeaveLeaderboard _ =>
      guardSocket s fun _ => (s, [Effect.socketEmit "leave-leaderboard"])
  | WSEvent.callSubmitQuizAnswer =>
      guardSocket s fun _ => (s, [Effect.socketEmit "quiz-answer"])
  | WSEvent.callStartQuiz =>
      guardSocket s fun _ => (s, [Effect.socketEmit "start-quiz"])
  | WSEvent.callCompleteLesson =>
      guardSocket s fun _ => (s, [Effect.socketEmit "lesson-completed"])
  | WSEvent.callSendHeartbeat _ =>
      guardSocket s fun _ => (s, [Effect.socketEmit "heartbeat"])
  | WSEvent.callUpdateActivity _ _ =>
      guardSocket s fun _ => (s, [Effect.socketEmit "user-activity"])
  | WSEvent.callDisconnect =>
      match s.socket with
      | some sid =>
          ({ s with
              socket := none
              connected := false
              liveHandles := s.liveHandles.filter (fun x => x != sid) },
            [Effect.closeSocket sid])
      | none => (s, [])
  | WSEvent.callEmit ev =>
      guardSocket s fun _ => (s, [Effect.socketEmit ev])
  | WSEvent.callOn ev =>
      guardSocket s fun _ => (s, [Effect.socketOn ev])
  | WSEvent.callOff ev single =>
      guardSocket s fun _ => (s, [Effect.socketOff ev single])

/-- Method isConnected (lines 269-271): this.socket?.connected || false. -/
def isConnected (s : WSState) : Bool :=
  match s.socket with
  | some _ => s.connected
  | none => false

/-- The state right after the constructor ran: the constructor calls connect(),
which creates socket 0. -/
def initState : WSState :=
  (connect { socket := none, connected := false, reconnectAttempts := 0,
             pendingRetries := 0, liveHandles := [], nextSid := 0 }).1

/-- State component of one step. -/
def stepState (s : WSState) (e : WSEvent) : WSState :=
  (step s e).1

/-- State reached from the constructor state by a sequence of events. -/
def runTrace (tr : List WSEvent) : WSState :=
  tr.foldl stepState initState

/-- Reachability from the constructor state. -/
def Reachable (s : WSState) : Prop :=
  ∃ tr, runTrace tr = s

/-- Recognises a scheduled retry timer effect. -/
def isScheduleRetry : Effect → Bool
  | Effect.scheduleRetry _ => true
  | _ => false

/-- Recognises the creation of a fresh socket object. -/
def isCreateSocket : Effect → Bool
  | Effect.createSocket _ => true
  | _ => false

/-- Recognises the explicit closing of a socket object. -/
def isCloseSocket : Effect → Bool
  | Effect.closeSocket _ => true
  | _ => false

/-- Recognises a window.dispatchEvent call (the generic dispatch to local
subscribers). -/
def isWindowDispatch : Effect → Bool
  | Effect.windowDispatch _ => true
  | _ => false

/-- Recognises a toast call (a notification intent). -/
def isToast : Effect → Bool
  | Effect.toast _ _ => true
  | _ => false

/-- Recognises any call into the transport handle: emit, on, or off. -/
def isTransportCall : Effect → Bool
  | Effect.socketEmit _ => true
  | Effect.socketOn _ => true
  | Effect.socketOff _ _ => true
  | _ => false

/-- Number of retry timers scheduled by a list of effects. -/
def retryCount (effs : List Effect) : Nat :=
  (effs.filter isScheduleRetry).length

/-- Recognises the transport-touching public methods named by the service API:
joinCourse, leaveCourse, joinLeaderboard, leaveLeaderboard, submitQuizAnswer,
startQuiz, completeLesson, sendHeartbeat, updateActivity, emit, on, off. -/
def isFacadeCall : WSEvent → Bool
  | WSEvent.callJoinCourse _ _ => true
  | WSEvent.callLeaveCourse _ _ => true
  | WSEvent.callJoinLeaderboard _ => true
  | WSEvent.callLeaveLeaderboard _ => true
  | WSEvent.callSubmitQuizAnswer => true
  | WSEvent.callStartQuiz => true
  | WSEvent.callCompleteLesson => true
  | WSEvent.callSendHeartbeat _ => true
  | WSEvent.callUpdateActivity _ _ => true
  | WSEvent.callEmit _ => true
  | WSEvent.callOn _ => true
  | WSEvent.callOff _ _ => true
  | _ => false

/-- The two services getWebSocketService can hand out: the real one in a
browser context, the SSR mock in a server context. -/
inductive ServiceKind
  | real
  | mock
deriving DecidableEq, Repr

/-- Function getWebSocketService (lines 310-336): with window defined the real
singleton service, without it the SSR mock object whose methods are all
no-ops. -/
def getWebSocketService (windowDefined : Bool) : ServiceKind :=
  if windowDefined then ServiceKind.real else ServiceKind.mock

/-- isConnected of the handed-out service: the real method on the real service,
the constant-false stub on the SSR mock. -/
def serviceIsConnected : ServiceKind → WSState → Bool
  | ServiceKind.real, s => isConnected s
  | ServiceKind.mock, _ => false

/-- One step of the handed-out service: the real step on the real service, a
pure no-op on the SSR mock. -/
def serviceStep : ServiceKind → WSState → WSEvent → WSState × List Effect
  | ServiceKind.real, s, e => step s e
  | ServiceKind.mock, s, _ => (s, [])

end WebSocketModel

namespace WebSocketModel

/-- Helper: one step never pushes reconnectAttempts past maxReconnectAttempts,
because handleReconnect increments only below the bound, the connect handler
resets to 0, and every other branch leaves the counter unchanged. -/
theorem step_attempts_le (s : WSState) (e : WSEvent)
    (h : s.reconnectAttempts ≤ maxReconnectAttempts) :
    (stepState s e).reconnectAttempts ≤ maxReconnectAttempts := by
  cases e <;> cases hs : s.socket <;>
    simp_all [stepState, step, guardSocket, handleReconnect, connect] <;>
    split_ifs <;> simp_all <;> omega

/-- Helper: once reconnectAttempts has reached the bound, no event schedules a
retry timer: handleReconnect returns after only showing the error toast, and no
other branch ever schedules one. -/
theorem retryCount_step_at_bound (s : WSState) (e : WSEvent)
    (h : maxReconnectAttempts ≤ s.reconnectAttempts) :
    retryCount (step s e).2 = 0 := by
  cases e <;> cases hs : s.socket <;>
    simp_all [step, guardSocket, handleReconnect, connect, retryCount,
      isScheduleRetry, notificationToast] <;>
    (try split_ifs) <;>
    (try casesm Option _) <;>
    simp_all [isScheduleRetry]

/-- Helper: the reconnectAttempts bound is preserved along any event sequence. -/
theorem foldl_attempts_le (tr : List WSEvent) (s0 : WSState)
    (h : s0.reconnectAttempts ≤ maxReconnectAttempts) :
    (tr.foldl stepState s0).reconnectAttempts ≤ maxReconnectAttempts := by
  induction tr generalizing s0 with
  | nil => exact h
  | cons e tl ih => exact ih _ (step_attempts_le s0 e h)

/-- Helper: every reachable state satisfies the reconnectAttempts bound. -/
theorem reachable_attempts_le (s : WSState) (h : Reachable s) :
    s.reconnectAttempts ≤ maxReconnectAttempts := by
  obtain ⟨tr, rfl⟩ := h
  exact foldl_attempts_le tr initState (by decide)

/-- C1 counterexample: a transport closed event with reason "transport close" —
a spontaneous network closure, not the explicit local stop reason
"io client disconnect" — arrives at the constructor state, where the client has
not given up, yet the disconnect handler schedules no retry, because the source
only retries when the reason is exactly "io server disconnect". -/
theorem retry_not_initiated_on_spontaneous_close :
    initState.reconnectAttempts < maxReconnectAttempts ∧
    ¬ ("transport close" = "io client disconnect") ∧
    retryCount (step initState (WSEvent.transportDisconnect "transport close")).2 = 0 := by
  decide

/-- C1 amended: while the client has not given up, a transport error event
always schedules a retry, and a transport closed event schedules a retry only
when the closure reason is exactly "io server disconnect"; every other closure
reason — spontaneous closes as well as the explicit local stop — schedules
none. -/
theorem retry_only_on_server_disconnect_or_error (s : WSState) (sid : Nat)
    (reason : String) (hs : s.socket = some sid)
    (hlt : s.reconnectAttempts < maxReconnectAttempts)
    (hr : reason ≠ "io server disconnect") :
    retryCount (step s (WSEvent.transportDisconnect reason)).2 = 0 ∧
    retryCount (step s (WSEvent.transportDisconnect "io server disconnect")).2 = 1 ∧
    retryCount (step s WSEvent.transportError).2 = 1 := by
  refine ⟨?_, ?_, ?_⟩ <;>
    simp_all [step, guardSocket, handleReconnect, retryCount, isScheduleRetry,
      Nat.not_le.mpr hlt]

/-- C1 witness: the amended statement evaluated at the constructor state with
the spontaneous closure reason "transport close". -/
theorem retry_only_on_server_disconnect_or_error_witness :
    retryCount (step initState (WSEvent.transportDisconnect "transport close")).2 = 0 ∧
    retryCount (step initState (WSEvent.transportDisconnect "io server disconnect")).2 = 1 ∧
    retryCount (step initState WSEvent.transportError).2 = 1 :=
  retry_only_on_server_disconnect_or_error initState 0 "transport close" rfl
    (by decide) (by decide)

/-- C2 counterexample: a transport error schedules a retry, then the
application calls disconnect(); the pending retry timer is not cancelled (the
source stores no timer id and never clears one), and when it fires it creates a
fresh socket — a reconnect attempt fires after the explicit stop. -/
theorem pending_retry_survives_explicit_disconnect :
    (runTrace [WSEvent.transportError, WSEvent.callDisconnect]).socket = none ∧
    (runTrace [WSEvent.transportError, WSEvent.callDisconnect]).pendingRetries = 1 ∧
    ((step (runTrace [WSEvent.transportError, WSEvent.callDisconnect])
        WSEvent.timerFire).2.filter isCreateSocket).length = 1 := by
  decide

/-- C2 amended: disconnect() tears down the socket reference and a subsequent
spontaneous transport close triggers no reconnect, but it does not cancel a
pending scheduled retry: the pending-retry count is unchanged and a retry
scheduled before the stop still fires and starts a new connect attempt. -/
theorem explicit_disconnect_no_cancel (s : WSState) (reason : String)
    (h : 0 < s.pendingRetries) :
    (step s WSEvent.callDisconnect).1.socket = none ∧
    (step s WSEvent.callDisconnect).1.pendingRetries = s.pendingRetries ∧
    retryCount (step (step s WSEvent.callDisconnect).1
      (WSEvent.transportDisconnect reason)).2 = 0 ∧
    ((step (step s WSEvent.callDisconnect).1 WSEvent.timerFire).2.filter
      isCreateSocket).length = 1 := by
  cases hs : s.socket <;>
    simp_all [step, guardSocket, connect, retryCount, isScheduleRetry, isCreateSocket]

/-- C2 witness: the amended statement evaluated after one transport error has
scheduled a retry. -/
theorem explicit_disconnect_no_cancel_witness :
    (step (runTrace [WSEvent.transportError]) WSEvent.callDisconnect).1.socket = none ∧
    (step (runTrace [WSEvent.transportError]) WSEvent.callDisconnect).1.pendingRetries =
      (runTrace [WSEvent.transportError]).pendingRetries ∧
    retryCount (step (step (runTrace [WSEvent.transportError]) WSEvent.callDisconnect).1
      (WSEvent.transportDisconnect "transport close")).2 = 0 ∧
    ((step (step (runTrace [WSEvent.transportError]) WSEvent.callDisconnect).1
      WSEvent.timerFire).2.filter isCreateSocket).length = 1 :=
  explicit_disconnect_no_cancel (runTrace [WSEvent.transportError]) "transport close"
    (by decide)

/-- C3: in every reachable state the reconnect counter never exceeds
maxReconnectAttempts (5): any reachable state whose counter has reached the
bound has it exactly at the bound, and from such a given-up state no event
schedules any further retry. -/
theorem reconnectAttempts_bounded_and_given_up (s : WSState) (e : WSEvent)
    (h : Reachable s) (hmax : maxReconnectAttempts ≤ s.reconnectAttempts) :
    s.reconnectAttempts = maxReconnectAttempts ∧ retryCount (step s e).2 = 0 :=
  ⟨Nat.le_antisymm (reachable_attempts_le s h) hmax, retryCount_step_at_bound s e hmax⟩

/-- C3 witness: five consecutive transport errors drive the counter exactly to
the bound, and a sixth error schedules nothing. -/
theorem reconnectAttempts_bounded_and_given_up_witness :
    (runTrace [WSEvent.transportError, WSEvent.transportError, WSEvent.transportError,
      WSEvent.transportError, WSEvent.transportError]).reconnectAttempts =
        maxReconnectAttempts ∧
    retryCount (step (runTrace [WSEvent.transportError, WSEvent.transportError,
      WSEvent.transportError, WSEvent.transportError, WSEvent.transportError])
      WSEvent.transportError).2 = 0 :=
  reconnectAttempts_bounded_and_given_up _ WSEvent.transportError
    ⟨[WSEvent.transportError, WSEvent.transportError, WSEvent.transportError,
      WSEvent.transportError, WSEvent.transportError], rfl⟩ (by decide)

/-- C4 counterexample: after a transport error and the retry timer firing, the
new connect attempt has created socket 1 while socket 0 was never closed and
its listeners were never removed — two handles are live at once, and the
connect step performs no teardown. -/
theorem two_live_handles_after_reconnect :
    (runTrace [WSEvent.transportError, WSEvent.timerFire]).liveHandles = [0, 1] ∧
    1 < (runTrace [WSEvent.transportError, WSEvent.timerFire]).liveHandles.length ∧
    ((step (runTrace [WSEvent.transportError]) WSEvent.timerFire).2.filter
      isCloseSocket) = [] := by
  decide

/-- C4 amended: a new connect attempt overwrites the socket reference with a
fresh handle but tears down nothing: every previously live handle stays live
and no close is performed, so more than one Transport Handle can be live at a
time. -/
theorem connect_keeps_previous_handle (s : WSState) (h : 0 < s.pendingRetries) :
    (step s WSEvent.timerFire).1.socket = some s.nextSid ∧
    (step s WSEvent.timerFire).1.liveHandles = s.liveHandles ++ [s.nextSid] ∧
    (step s WSEvent.timerFire).2.filter isCloseSocket = [] := by
  simp [step, h, connect, isCloseSocket]

/-- C4 witness: the amended statement evaluated after one transport error has
scheduled a retry. -/
theorem connect_keeps_previous_handle_witness :
    (step (runTrace [WSEvent.transportError]) WSEvent.timerFire).1.socket =
      some (runTrace [WSEvent.transportError]).nextSid ∧
    (step (runTrace [WSEvent.transportError]) WSEvent.timerFire).1.liveHandles =
      (runTrace [WSEvent.transportError]).liveHandles ++
        [(runTrace [WSEvent.transportError]).nextSid] ∧
    (step (runTrace [WSEvent.transportError]) WSEvent.timerFire).2.filter
      isCloseSocket = [] :=
  connect_keeps_previous_handle (runTrace [WSEvent.transportError]) (by decide)

/-- C5: when the a-th reconnect attempt starts (the counter holds a - 1, with
a between 1 and maxReconnectAttempts), handleReconnect schedules the retry with
delay reconnectDelay * 2 ^ (a - 1), and the backoff delay is monotonically
non-decreasing in the attempt number. -/
theorem backoff_delay_formula_monotone (a b : Nat) (s : WSState)
    (ha : 1 ≤ a) (hab : a ≤ b) (hb : b ≤ maxReconnectAttempts)
    (hs : s.reconnectAttempts = a - 1) :
    (handleReconnect s).2 = [Effect.scheduleRetry (reconnectDelay * 2 ^ (a - 1))] ∧
    backoffDelay a ≤ backoffDelay b := by
  constructor
  · have hcond : ¬ maxReconnectAttempts ≤ a - 1 := by
      unfold maxReconnectAttempts at hb ⊢; omega
    simp [handleReconnect, hs, hcond, backoffDelay]
  · unfold backoffDelay
    exact Nat.mul_le_mul_left _ (Nat.pow_le_pow_right (by norm_num) (by omega))

/-- C5 witness: the second attempt (counter at 1 after one transport error) is
scheduled with delay 1000 * 2 = 2000, and delay(2) ≤ delay(3). -/
theorem backoff_delay_formula_monotone_witness :
    (handleReconnect (runTrace [WSEvent.transportError])).2 =
      [Effect.scheduleRetry (reconnectDelay * 2 ^ (2 - 1))] ∧
    backoffDelay 2 ≤ backoffDelay 3 :=
  backoff_delay_formula_monotone 2 3 (runTrace [WSEvent.transportError]) (by decide)
    (by decide) (by decide) (by decide)

/-- C6 counterexample: at the constructor state the socket object exists but is
not yet connected, so isConnected reports false, yet joinCourse still performs
the transport emit — the source guards on socket existence, not on the
connected status. -/
theorem joinCourse_emits_while_not_connected :
    isConnected initState = false ∧
    (step initState (WSEvent.callJoinCourse "course-1" "user-1")).2 =
      [Effect.socketEmit "join-course"] := by
  decide

/-- C6 amended: joinCourse is silently dropped exactly when the socket
reference is null; whenever a socket object exists the transport emit is
performed, whether or not the Connection Controller reports Connected. -/
theorem joinCourse_drops_only_on_null_socket (s : WSState) (courseId userId : String) :
    (step s (WSEvent.callJoinCourse courseId userId)).2 =
      match s.socket with
      | some _ => [Effect.socketEmit "join-course"]
      | none => [] := by
  cases hs : s.socket <;> simp [step, guardSocket, hs]

/-- C7 counterexample: inbound messages on the reserved topics notification and
competition-announcement produce a notification intent (one toast each) but no
generic dispatch to topic subscribers — their handlers never call
window.dispatchEvent. -/
theorem notification_topics_without_dispatch :
    ((step initState (WSEvent.inNotification "info" "msg")).2.filter
      isWindowDispatch) = [] ∧
    ((step initState (WSEvent.inCompetitionAnnouncement "msg")).2.filter
      isWindowDispatch) = [] ∧
    ((step initState (WSEvent.inNotification "info" "msg")).2.filter isToast).length = 1 ∧
    ((step initState (WSEvent.inCompetitionAnnouncement "msg")).2.filter
      isToast).length = 1 := by
  decide

/-- C7 amended: of the five reserved topics, points-update, badge-unlocked and
streak-update produce a generic dispatch to topic subscribers (plus their
conditional notification intent), while notification and
competition-announcement produce only a notification intent and no generic
dispatch. -/
theorem reserved_topic_dispatch_behaviour (s : WSState) (sid : Nat)
    (hs : s.socket = some sid) (pg v : Int) (badgeName ntype message : String) :
    (step s (WSEvent.inPointsUpdate pg)).2.filter isWindowDispatch =
      [Effect.windowDispatch "points-update"] ∧
    (step s (WSEvent.inBadgeUnlocked badgeName)).2.filter isWindowDispatch =
      [Effect.windowDispatch "badge-unlocked"] ∧
    ((step s (WSEvent.inBadgeUnlocked badgeName)).2.filter isToast).length = 1 ∧
    (step s (WSEvent.inStreakUpdate (some v))).2.filter isWindowDispatch =
      [Effect.windowDispatch "streak-update"] ∧
    (step s (WSEvent.inNotification ntype message)).2 =
      [notificationToast ntype message] ∧
    (step s (WSEvent.inCompetitionAnnouncement message)).2 =
      [Effect.toast ToastKind.plain message] := by
  refine ⟨?_, ?_, ?_, ?_, ?_, ?_⟩ <;>
    simp [step, guardSocket, hs, isWindowDispatch, isToast]

/-- C7 witness: the amended statement evaluated at the constructor state on
concrete inbound messages for all five reserved topics. -/
theorem reserved_topic_dispatch_behaviour_witness :
    (step initState (WSEvent.inPointsUpdate 50)).2.filter isWindowDispatch =
      [Effect.windowDispatch "points-update"] ∧
    (step initState (WSEvent.inBadgeUnlocked "Gold")).2.filter isWindowDispatch =
      [Effect.windowDispatch "badge-unlocked"] ∧
    ((step initState (WSEvent.inBadgeUnlocked "Gold")).2.filter isToast).length = 1 ∧
    (step initState (WSEvent.inStreakUpdate (some 7))).2.filter isWindowDispatch =
      [Effect.windowDispatch "streak-update"] ∧
    (step initState (WSEvent.inNotification "info" "msg")).2 =
      [notificationToast "info" "msg"] ∧
    (step initState (WSEvent.inCompetitionAnnouncement "msg")).2 =
      [Effect.toast ToastKind.plain "msg"] :=
  reserved_topic_dispatch_behaviour initState 0 rfl 50 7 "Gold" "info" "msg"

/-- C8: an inbound points-update message always yields exactly one generic
dispatch to the topic subscribers, and yields exactly one success toast
carrying the gained amount when pointsGained > 0 and no toast when
pointsGained ≤ 0. -/
theorem points_update_dispatch_and_intent (s : WSState) (sid : Nat)
    (hs : s.socket = some sid) (pg : Int) :
    ((step s (WSEvent.inPointsUpdate pg)).2.filter isWindowDispatch).length = 1 ∧
    (step s (WSEvent.inPointsUpdate pg)).2.filter isToast =
      (if 0 < pg then
        [Effect.toast ToastKind.success ("+" ++ toString pg ++ " points earned! 🎉")]
      else []) := by
  constructor <;>
    simp [step, guardSocket, hs, isWindowDispatch, isToast]

/-- C8 witness: an inbound points-update with pointsGained = 50 at the
constructor state. -/
theorem points_update_dispatch_and_intent_witness :
    ((step initState (WSEvent.inPointsUpdate 50)).2.filter isWindowDispatch).length = 1 ∧
    (step initState (WSEvent.inPointsUpdate 50)).2.filter isToast =
      (if 0 < (50 : Int) then
        [Effect.toast ToastKind.success ("+" ++ toString (50 : Int) ++ " points earned! 🎉")]
      else []) :=
  points_update_dispatch_and_intent initState 0 rfl 50

/-- C9: in a non-interactive (server-side) context the singleton accessor hands
out the mock service, on which every operation is a no-op that leaves the state
unchanged and produces no effect, and the status query isConnected returns
false; every operation is a total function, so nothing fails or throws. -/
theorem ssr_service_noop (s : WSState) (e : WSEvent) :
    serviceStep (getWebSocketService false) s e = (s, []) ∧
    serviceIsConnected (getWebSocketService false) s = false := by
  simp [serviceStep, serviceIsConnected, getWebSocketService]

/-- C10: after disconnect() the socket reference is null, isConnected reports
false, and every transport-touching public method (joinCourse, leaveCourse,
joinLeaderboard, leaveLeaderboard, submitQuizAnswer, startQuiz, completeLesson,
sendHeartbeat, updateActivity, emit, on, off) invoked on the resulting state is
a pure no-op: it performs no transport call, changes nothing, and returns
normally. -/
theorem disconnect_then_ops_noop (s : WSState) (e : WSEvent)
    (he : isFacadeCall e = true) :
    (step s WSEvent.callDisconnect).1.socket = none ∧
    isConnected (step s WSEvent.callDisconnect).1 = false ∧
    step (step s WSEvent.callDisconnect).1 e = ((step s WSEvent.callDisconnect).1, []) := by
  have h1 : (step s WSEvent.callDisconnect).1.socket = none := by
    cases hs : s.socket <;> simp [step, hs]
  refine ⟨h1, ?_, ?_⟩
  · simp [isConnected, h1]
  · cases e <;> simp_all [isFacadeCall, step, guardSocket, h1]

/-- C10 witness: disconnect() at the constructor state followed by a joinCourse
call. -/
theorem disconnect_then_ops_noop_witness :
    (step initState WSEvent.callDisconnect).1.socket = none ∧
    isConnected (step initState WSEvent.callDisconnect).1 = false ∧
    step (step initState WSEvent.callDisconnect).1
      (WSEvent.callJoinCourse "course-1" "user-1") =
      ((step initState WSEvent.callDisconnect).1, []) :=
  disconnect_then_ops_noop initState (WSEvent.callJoinCourse "course-1" "user-1")
    (by decide)

end WebSocketModel
